import Mathlib

/-!
Shallow embedding of the JIRA/GitHub integration script
(`src/js/JIRAGitHubIntegration.js`, v3.0.0) of the
`thomasvincent/mac_jsx_automation` repository.

The script is a JXA (JavaScript for Automation) program.  All of its
side effects go through `app.doShellScript`, `app.openLocation`,
`app.displayNotification` and `app.displayDialog`; we model one run of
the program as a pure function from the ambient world (keychain
contents, the two upstream HTTP responses, the home folder, the clock)
to an ordered list of side-effect events together with the run's
result (the resolved promise value or the thrown error).

Modelling decisions, each tied to the source:
* `security find-generic-password` (inside `Keychain.getPassword`)
  either prints the stored password, or exits non-zero — both when the
  item does not exist and when the keychain mechanism itself fails.
  `SecLookup` distinguishes the three outcomes of that external call;
  the embedded `Keychain.getPassword` then follows the source's
  `try/catch` literally.
* `curl -s` exits 0 and prints the response body for *any* HTTP
  status, so the JS code only ever sees the body text.  `HttpResponse`
  carries the wire-level status and raw body (which the JS never
  observes) plus the outcome of `JSON.parse` on the body
  (`Except String α`, the `String` being the parser's error message).
* The interactive dialog flow of `Keychain.showKeychainError` is
  driven by the user; it is abstracted to a single `dialog` event
  (whatever the user answers, `getPassword` still returns `""`).
* `JSON.stringify(combinedData, null, 2)` is modelled by
  `jsonStringify`, a renderer specialized to the fixed shape of
  `combinedData` as constructed in `main` (field order is the
  insertion order of that object literal).
* Shell quoting in `saveDataToFile` (`echo '…' > path`) is abstracted:
  the `fileWrite` event carries the path and the data string.
-/

/-- One ticket status object: `{name}`. -/
structure IssueStatus where
  name : String
deriving DecidableEq, Repr

/-- The `fields` sub-object of a JIRA issue: `{summary, status}`. -/
structure IssueFields where
  summary : String
  status : IssueStatus
deriving DecidableEq, Repr

/-- One JIRA issue record: `{key, fields:{summary, status:{name}}}`. -/
structure JiraTicket where
  key : String
  fields : IssueFields
deriving DecidableEq, Repr

/-- The parsed JIRA search response.  The script only reads the
`issues` field and guards for its absence (`jiraData.issues ? … : 0`,
`jiraData.issues || []`), so the field is an `Option`. -/
structure JiraJson where
  issues : Option (List JiraTicket)
deriving DecidableEq, Repr

/-- The `user` sub-object of a pull-request record. -/
structure PrUser where
  login : String
deriving DecidableEq, Repr

/-- One GitHub pull-request record.  `html_url` is optional because
the script guards on its truthiness (`if (pr.html_url)`). -/
structure PullRequest where
  number : Nat
  title : String
  html_url : Option String
  user : PrUser
  created_at : String
deriving DecidableEq, Repr

/-- Outcome of the external `security find-generic-password` call:
the item's password, or a non-zero exit because no such item exists,
or a non-zero exit because the keychain mechanism itself failed.  The
JS code cannot tell the two error exits apart (both throw from
`doShellScript` into the same `catch`). -/
inductive SecLookup where
  | found (pw : String)
  | errNotFound
  | errStoreFailure
deriving DecidableEq, Repr

/-- An upstream HTTP exchange as `curl -s` mediates it: the wire
status and raw body (never observed by the JS code), and the result of
`JSON.parse` applied to the body (`Except.error` carries the parse
error's message). -/
structure HttpResponse (α : Type) where
  status : Nat
  rawBody : String
  parsed : Except String α
deriving Repr

/-- A JS `Error` value as the script uses it: only its `message`. -/
structure JsError where
  message : String
deriving DecidableEq, Repr

/-- One observable side effect of a run, in program order. -/
inductive Event where
  | notify (title message : String) (sound : Option String)
  | dialog (serviceName : String)
  | urlOpen (url : String)
  | httpGet (url : String)
  | shellMkdir (dir : String)
  | fileWrite (path content : String)
  | appOpen (app path : String)
  | spotlightIndex (path : String)
deriving DecidableEq, Repr

/-- The ambient world one run executes against. -/
structure World where
  jiraLookup : SecLookup
  githubLookup : SecLookup
  jiraResponse : HttpResponse JiraJson
  githubResponse : HttpResponse (List PullRequest)
  home : String
  now : String
deriving Repr

/-! ## The CONFIG object -/

/-- `CONFIG.jira`. -/
structure JiraSettings where
  baseUrl : String
  keychainItem : String
  project : String
  statusFilter : String
  fields : String
deriving Repr

/-- `CONFIG.github`. -/
structure GithubSettings where
  baseUrl : String
  keychainItem : String
  defaultUsername : String
  defaultRepo : String
deriving Repr

/-- `CONFIG.output`. -/
structure OutputSettings where
  filePath : String
  appName : String
  openInBrowser : Bool
  enableSpotlightIndexing : Bool
deriving Repr

/-- The whole `CONFIG` literal. -/
structure AppConfig where
  jira : JiraSettings
  github : GithubSettings
  output : OutputSettings
deriving Repr

/-- The `CONFIG` constant of the script (the `status` key of
`CONFIG.jira` is named `statusFilter` here to avoid clashing with the
`IssueStatus` projection). -/
def CONFIG : AppConfig :=
  { jira :=
      { baseUrl := "https://jira.example.com/rest/api/2/"
        keychainItem := "JIRA API Token"
        project := "MyProject"
        statusFilter := "Open"
        fields := "summary,status" }
    github :=
      { baseUrl := "https://api.github.com/"
        keychainItem := "GitHub API Token"
        defaultUsername := "myusername"
        defaultRepo := "myrepo" }
    output :=
      { filePath := "~/Documents/JIRA-GitHub-Data.json"
        appName := "TextEdit"
        openInBrowser := true
        enableSpotlightIndexing := true } }

/-! ## encodeURIComponent -/

/-- Characters `encodeURIComponent` leaves unescaped:
alphanumerics and `- _ . ! ~ * ' ( )`. -/
def isUnreservedURIChar (c : Char) : Bool :=
  c.isAlphanum || c = '-' || c = '_' || c = '.' || c = '!' ||
    c = '~' || c = '*' || c.toNat = 39 || c = '(' || c = ')'

/-- Uppercase hex digit for `n < 16`. -/
def hexDigitUpper (n : Nat) : Char :=
  if n < 10 then Char.ofNat (48 + n) else Char.ofNat (55 + n)

/-- `%XX` escape of one UTF-8 byte (uppercase, as in JS). -/
def percentEncodeByte (b : UInt8) : String :=
  let n := b.toNat
  String.mk ['%', hexDigitUpper (n / 16), hexDigitUpper (n % 16)]

/-- JS `encodeURIComponent`. -/
def encodeURIComponent (s : String) : String :=
  s.toList.foldl
    (fun acc c =>
      if isUnreservedURIChar c then acc.push c
      else acc ++ String.join (((String.mk [c]).toUTF8.toList).map percentEncodeByte))
    ""

/-- JS `String.prototype.trim`: strip leading and trailing
whitespace.  (A structurally recursive equivalent of `String.trim`,
kept evaluable.) -/
def jsTrim (s : String) : String :=
  String.mk (((s.toList.dropWhile Char.isWhitespace).reverse.dropWhile
    Char.isWhitespace).reverse)

/-! ## Keychain -/

namespace Keychain

/-- `Keychain.getPassword` (source lines 98–107): runs
`security find-generic-password -s "<serviceName>" -w` and trims the
output; on *any* shell error it logs, shows the interactive keychain
error dialog, and returns `""`. -/
def getPassword (r : SecLookup) (serviceName : String) : List Event × String :=
  match r with
  | SecLookup.found pw => ([], jsTrim pw)
  | SecLookup.errNotFound => ([Event.dialog serviceName], "")
  | SecLookup.errStoreFailure => ([Event.dialog serviceName], "")

end Keychain

/-! ## JIRA client -/

namespace JIRA

/-- Everything before the first `/` of `s`. -/
def hostPart (s : String) : String :=
  String.mk (s.toList.takeWhile (fun c => c ≠ '/'))

/-- `JIRA.getInstanceUrl`: the regex `^(https?:\/\/[^\/]+)` applied to
`CONFIG.jira.baseUrl`; on no match the base URL itself. -/
def getInstanceUrl : String :=
  let b := CONFIG.jira.baseUrl
  if b.startsWith "https://" then
    let host := hostPart (b.drop 8)
    if host = "" then b else "https://" ++ host
  else if b.startsWith "http://" then
    let host := hostPart (b.drop 7)
    if host = "" then b else "http://" ++ host
  else b

/-- `JIRA.getTicketUrl`. -/
def getTicketUrl (ticketKey : String) : String :=
  getInstanceUrl ++ "/browse/" ++ ticketKey

/-- The full search URL `JIRA.getTickets` passes to curl. -/
def searchUrl : String :=
  let url := CONFIG.jira.baseUrl ++ "search"
  let jql := encodeURIComponent
    ("project = " ++ CONFIG.jira.project ++ " AND status = " ++ CONFIG.jira.statusFilter)
  let fieldsParam := encodeURIComponent CONFIG.jira.fields
  url ++ "?jql=" ++ jql ++ "&fields=" ++ fieldsParam

/-- `JIRA.getTickets` (source lines 169–190): resolves the token from
the keychain, rejects with "No JIRA API token found in Keychain" when
it is empty (before any curl runs), otherwise curls the search URL and
resolves with `JSON.parse` of the body, rejecting when the parse
throws.  `curl -s` never surfaces the HTTP status. -/
def getTickets (w : World) : List Event × Except JsError JiraJson :=
  let kc := Keychain.getPassword w.jiraLookup CONFIG.jira.keychainItem
  if kc.snd = "" then
    (kc.fst, Except.error ⟨"No JIRA API token found in Keychain"⟩)
  else
    match w.jiraResponse.parsed with
    | Except.ok j => (kc.fst ++ [Event.httpGet searchUrl], Except.ok j)
    | Except.error m =>
        (kc.fst ++ [Event.httpGet searchUrl],
         Except.error ⟨"Error fetching JIRA tickets: " ++ m⟩)

end JIRA

/-! ## GitHub client -/

namespace GitHub

/-- The pulls URL for a (defaulted) owner and repository. -/
def pullsUrl (username repo : String) : String :=
  CONFIG.github.baseUrl ++ "repos/" ++ username ++ "/" ++ repo ++ "/pulls?state=open"

/-- `GitHub.getPullRequests` (source lines 224–248): re-applies the
configured fallbacks on falsy arguments (`username || default`),
resolves the token, rejects with "No GitHub API token found in
Keychain" when it is empty (before any curl runs), otherwise curls and
parses the body. -/
def getPullRequests (w : World) (username repo : String) :
    List Event × Except JsError (List PullRequest) :=
  let username := if username = "" then CONFIG.github.defaultUsername else username
  let repo := if repo = "" then CONFIG.github.defaultRepo else repo
  let kc := Keychain.getPassword w.githubLookup CONFIG.github.keychainItem
  if kc.snd = "" then
    (kc.fst, Except.error ⟨"No GitHub API token found in Keychain"⟩)
  else
    match w.githubResponse.parsed with
    | Except.ok l => (kc.fst ++ [Event.httpGet (pullsUrl username repo)], Except.ok l)
    | Except.error m =>
        (kc.fst ++ [Event.httpGet (pullsUrl username repo)],
         Except.error ⟨"Error fetching GitHub pull requests: " ++ m⟩)

end GitHub

/-! ## System sinks -/

namespace System

/-- `System.openUrl`. -/
def openUrl (url : String) : List Event :=
  [Event.urlOpen url]

/-- Tilde expansion at the front of a path
(`filePath.replace(/^~/, home)`). -/
def expandTilde (home path : String) : String :=
  if path.startsWith "~" then home ++ path.drop 1 else path

/-- `expandedPath.substring(0, expandedPath.lastIndexOf("/"))`:
everything strictly before the last `/`; the empty string when there
is no `/` (JS `substring(0, -1)` clamps to the empty string). -/
def dirnameOf (s : String) : String :=
  String.mk ((s.toList.reverse.dropWhile (fun c => c ≠ '/')).drop 1).reverse

/-- `System.saveDataToFile` (source lines 272–294): expands `~`,
creates the directory, writes the data, and — only when an application
name was passed — opens the file with it.  Returns the expanded
path. -/
def saveDataToFile (home data filePath : String) (appName : Option String) :
    List Event × String :=
  let expandedPath := expandTilde home filePath
  let dirPath := dirnameOf expandedPath
  let openEv := match appName with
    | some a => [Event.appOpen a expandedPath]
    | none => []
  ([Event.shellMkdir dirPath, Event.fileWrite expandedPath data] ++ openEv, expandedPath)

/-- `System.displayNotification`. -/
def displayNotification (title message : String) (sound : Option String) : List Event :=
  [Event.notify title message sound]

/-- `System.indexWithSpotlight`. -/
def indexWithSpotlight (filePath : String) : List Event :=
  [Event.spotlightIndex filePath]

end System

/-! ## Run configuration -/

/-- The caller's `options` object; `none` is JS `undefined`. -/
structure Options where
  githubUsername : Option String := none
  githubRepo : Option String := none
  openInBrowser : Option Bool := none
  outputFilePath : Option String := none
  outputApp : Option String := none
  summaryOnly : Option Bool := none
  richNotifications : Option Bool := none
deriving Repr

/-- The resolved `config` object inside `main`. -/
structure Config where
  githubUsername : String
  githubRepo : String
  openInBrowser : Bool
  outputFilePath : String
  outputApp : String
  summaryOnly : Bool
  richNotifications : Bool
deriving Repr

/-- JS `options.x || default` for strings: `undefined` and `""` are
both falsy and fall back to the default. -/
def orDefaultStr (o : Option String) (d : String) : String :=
  match o with
  | none => d
  | some s => if s = "" then d else s

/-- The option merge at the top of `main` (source lines 340–348).
`openInBrowser`/`richNotifications` use an `!== undefined` test,
`summaryOnly` uses `|| false`, the strings use `||`. -/
def Config.resolve (o : Options) : Config :=
  { githubUsername := orDefaultStr o.githubUsername CONFIG.github.defaultUsername
    githubRepo := orDefaultStr o.githubRepo CONFIG.github.defaultRepo
    openInBrowser := o.openInBrowser.getD CONFIG.output.openInBrowser
    outputFilePath := orDefaultStr o.outputFilePath CONFIG.output.filePath
    outputApp := orDefaultStr o.outputApp CONFIG.output.appName
    summaryOnly := o.summaryOnly.getD false
    richNotifications := o.richNotifications.getD true }

/-! ## The combined report -/

/-- `combinedData.metadata`. -/
structure Metadata where
  generated : String
  jiraProject : String
  githubRepo : String
deriving DecidableEq, Repr

/-- The `combinedData` object literal of `main`. -/
structure CombinedData where
  metadata : Metadata
  jiraTickets : List JiraTicket
  githubPullRequests : List PullRequest
deriving DecidableEq, Repr

/-! ## JSON.stringify(combinedData, null, 2)

A renderer specialized to the shape of `combinedData`; key order is
the object literal's insertion order.  A pull request whose `html_url`
is `undefined` has that key omitted, as `JSON.stringify` does. -/

/-- JSON string-character escaping as `JSON.stringify` performs it. -/
def jsonEscapeChar (c : Char) : String :=
  if c = '"' then "\\\""
  else if c = '\\' then "\\\\"
  else if c = '\n' then "\\n"
  else if c = '\r' then "\\r"
  else if c = '\t' then "\\t"
  else if c.toNat = 8 then "\\b"
  else if c.toNat = 12 then "\\f"
  else if c.toNat < 32 then
    "\\u00" ++ String.mk [hexDigitUpper (c.toNat / 16), hexDigitUpper (c.toNat % 16)]
  else String.mk [c]

/-- Body of a JSON string literal. -/
def jsonEscape (s : String) : String :=
  s.toList.foldl (fun acc c => acc ++ jsonEscapeChar c) ""

/-- A JSON string literal. -/
def jsonStr (s : String) : String :=
  "\"" ++ jsonEscape s ++ "\""

/-- `n` spaces. -/
def indentSp (n : Nat) : String :=
  String.mk (List.replicate n ' ')

/-- One ticket object, pretty-printed at indentation `ind`. -/
def renderTicket (ind : Nat) (t : JiraTicket) : String :=
  "\x7b\n" ++
  indentSp (ind + 2) ++ "\"key\": " ++ jsonStr t.key ++ ",\n" ++
  indentSp (ind + 2) ++ "\"fields\": \x7b\n" ++
  indentSp (ind + 4) ++ "\"summary\": " ++ jsonStr t.fields.summary ++ ",\n" ++
  indentSp (ind + 4) ++ "\"status\": \x7b\n" ++
  indentSp (ind + 6) ++ "\"name\": " ++ jsonStr t.fields.status.name ++ "\n" ++
  indentSp (ind + 4) ++ "\x7d\n" ++
  indentSp (ind + 2) ++ "\x7d\n" ++
  indentSp ind ++ "\x7d"

/-- One pull-request object, pretty-printed at indentation `ind`. -/
def renderPr (ind : Nat) (pr : PullRequest) : String :=
  "\x7b\n" ++
  indentSp (ind + 2) ++ "\"number\": " ++ toString pr.number ++ ",\n" ++
  indentSp (ind + 2) ++ "\"title\": " ++ jsonStr pr.title ++ ",\n" ++
  (match pr.html_url with
   | some u => indentSp (ind + 2) ++ "\"html_url\": " ++ jsonStr u ++ ",\n"
   | none => "") ++
  indentSp (ind + 2) ++ "\"user\": \x7b\n" ++
  indentSp (ind + 4) ++ "\"login\": " ++ jsonStr pr.user.login ++ "\n" ++
  indentSp (ind + 2) ++ "\x7d,\n" ++
  indentSp (ind + 2) ++ "\"created_at\": " ++ jsonStr pr.created_at ++ "\n" ++
  indentSp ind ++ "\x7d"

/-- A pretty-printed JSON array at indentation `ind`, elements
rendered by `f`; `[]` when empty. -/
def renderArray {α : Type} (ind : Nat) (f : Nat → α → String) (l : List α) : String :=
  match l with
  | [] => "[]"
  | x :: xs =>
      "[\n" ++ indentSp (ind + 2) ++ f (ind + 2) x ++
      (xs.foldl (fun acc y => acc ++ ",\n" ++ indentSp (ind + 2) ++ f (ind + 2) y) "") ++
      "\n" ++ indentSp ind ++ "]"

/-- Everything of the serialized report after the `generated` value.
Independent of `d.metadata.generated`. -/
def renderAfterGenerated (d : CombinedData) : String :=
  ",\n    \"jiraProject\": " ++ jsonStr d.metadata.jiraProject ++ ",\n" ++
  "    \"githubRepo\": " ++ jsonStr d.metadata.githubRepo ++ "\n" ++
  "  \x7d,\n" ++
  "  \"jiraTickets\": " ++ renderArray 2 renderTicket d.jiraTickets ++ ",\n" ++
  "  \"githubPullRequests\": " ++ renderArray 2 renderPr d.githubPullRequests ++ "\n" ++
  "\x7d"

/-- `JSON.stringify(combinedData, null, 2)`. -/
def jsonStringify (d : CombinedData) : String :=
  "\x7b\n  \"metadata\": \x7b\n    \"generated\": " ++ jsonStr d.metadata.generated ++
    renderAfterGenerated d

/-! ## showRichSummaryNotification -/

/-- One issue line of the summary text. -/
def ticketLine (t : JiraTicket) : String :=
  "• " ++ t.key ++ ": " ++ t.fields.summary ++ "\n"

/-- One pull-request line of the summary text. -/
def prLine (pr : PullRequest) : String :=
  "• #" ++ toString pr.number ++ ": " ++ pr.title ++ "\n"

/-- The `summaryText` string built by `showRichSummaryNotification`
(source lines 445–486): `+=` accumulation over `slice(0, 3)` is a left
fold over `take 3`. -/
def summaryText (d : CombinedData) : String :=
  let jiraCount := d.jiraTickets.length
  let prCount := d.githubPullRequests.length
  let s1 :=
    if jiraCount > 0 then
      "JIRA Tickets (" ++ toString jiraCount ++ "):\n" ++
      ((d.jiraTickets.take 3).foldl (fun acc t => acc ++ ticketLine t) "") ++
      (if jiraCount > 3 then "• ...and " ++ toString (jiraCount - 3) ++ " more\n" else "")
    else "No JIRA tickets found.\n"
  let s2 :=
    if prCount > 0 then
      "\nGitHub PRs (" ++ toString prCount ++ "):\n" ++
      ((d.githubPullRequests.take 3).foldl (fun acc pr => acc ++ prLine pr) "") ++
      (if prCount > 3 then "• ...and " ++ toString (prCount - 3) ++ " more\n" else "")
    else "\nNo GitHub pull requests found."
  s1 ++ s2

/-- `showRichSummaryNotification` itself: one notification titled
"Summary" with the summary text and the "Glass" sound. -/
def showRichSummaryNotification (d : CombinedData) : List Event :=
  System.displayNotification "Summary" (summaryText d) (some "Glass")

/-! ## main -/

/-- The JIRA browser-open block of `main` (source lines 363–368):
`config.openInBrowser && jiraData.issues && jiraData.issues.length > 0`
then one `System.openUrl(JIRA.getTicketUrl(ticket.key))` per issue. -/
def jiraOpenEvents (config : Config) (jiraData : JiraJson) : List Event :=
  if config.openInBrowser then
    match jiraData.issues with
    | some issues =>
        if issues.length > 0 then
          issues.map (fun t => Event.urlOpen (JIRA.getTicketUrl t.key))
        else []
    | none => []
  else []

/-- The truthy `html_url` of a pull request (`if (pr.html_url)`):
`none` when the field is absent or the empty string. -/
def urlOf (pr : PullRequest) : Option String :=
  match pr.html_url with
  | some u => if u = "" then none else some u
  | none => none

/-- The GitHub browser-open block of `main` (source lines 375–381):
`config.openInBrowser && githubData.length > 0`, then per pull request
`if (pr.html_url) System.openUrl(pr.html_url)` (a missing or empty
`html_url` is skipped). -/
def prOpenEvents (config : Config) (githubData : List PullRequest) : List Event :=
  if config.openInBrowser && githubData.length > 0 then
    githubData.filterMap (fun pr => (urlOf pr).map (fun u => Event.urlOpen u))
  else []

/-- How many pull requests of a response carry a truthy `html_url`. -/
def prsWithUrl (githubData : List PullRequest) : Nat :=
  (githubData.filterMap urlOf).length

/-- `jiraData.issues ? jiraData.issues.length : 0`. -/
def ticketCountOf (jiraData : JiraJson) : Nat :=
  match jiraData.issues with
  | some l => l.length
  | none => 0

/-- The error notification of `main`'s catch block. -/
def errNotifyEv (e : JsError) : Event :=
  Event.notify "Error" ("Failed to retrieve data: " ++ e.message) (some "Basso")

/-- The `combinedData` object literal of `main` (source lines
384–392). -/
def combinedOf (config : Config) (w : World) (jiraData : JiraJson)
    (githubData : List PullRequest) : CombinedData :=
  { metadata :=
      { generated := w.now
        jiraProject := CONFIG.jira.project
        githubRepo := config.githubUsername ++ "/" ++ config.githubRepo }
    jiraTickets := jiraData.issues.getD []
    githubPullRequests := githubData }

/-- `main` from the point where both fetches have succeeded (source
lines 383–425): assemble `combinedData`, serialize it, maybe send the
rich summary notification, then either (summary-only) just write the
file, or write + open the file, Spotlight-index it and send the
completion notification.  `preEv` is the trace accumulated so far. -/
def afterFetch (config : Config) (w : World) (preEv : List Event)
    (jiraData : JiraJson) (githubData : List PullRequest) :
    List Event × Except JsError CombinedData :=
  let prOpenEv := prOpenEvents config githubData
  let combinedData := combinedOf config w jiraData githubData
  let dataString := jsonStringify combinedData
  let summaryEv :=
    if config.richNotifications && !config.summaryOnly then
      showRichSummaryNotification combinedData
    else []
  if config.summaryOnly then
    let writeEv :=
      if config.outputFilePath = "" then []
      else (System.saveDataToFile w.home dataString config.outputFilePath none).fst
    (preEv ++ prOpenEv ++ summaryEv ++ writeEv, Except.ok combinedData)
  else
    let saved := System.saveDataToFile w.home dataString config.outputFilePath
      (some config.outputApp)
    let indexEv :=
      if CONFIG.output.enableSpotlightIndexing then
        System.indexWithSpotlight saved.snd
      else []
    let doneEv := System.displayNotification "Data Retrieval Complete"
      ("Retrieved " ++ toString (ticketCountOf jiraData) ++ " JIRA tickets and " ++
        toString githubData.length ++ " GitHub pull requests.") (some "Glass")
    (preEv ++ prOpenEv ++ summaryEv ++ saved.fst ++ indexEv ++ doneEv,
     Except.ok combinedData)

/-- One run of `main(options)` (source lines 338–438): resolve the
config, send the "started" notification, fetch JIRA (a rejection falls
to the catch block: error notification, re-throw), open the tickets in
the browser, fetch GitHub (same failure policy), then `afterFetch`. -/
def mainRun (opts : Options) (w : World) : List Event × Except JsError CombinedData :=
  let config := Config.resolve opts
  let startEv := System.displayNotification "Data Retrieval Started"
    "Fetching data from JIRA and GitHub..." none
  match JIRA.getTickets w with
  | (jEv, Except.error e) =>
      (startEv ++ jEv ++ [errNotifyEv e], Except.error e)
  | (jEv, Except.ok jiraData) =>
    let jOpenEv := jiraOpenEvents config jiraData
    match GitHub.getPullRequests w config.githubUsername config.githubRepo with
    | (gEv, Except.error e) =>
        (startEv ++ jEv ++ jOpenEv ++ gEv ++ [errNotifyEv e], Except.error e)
    | (gEv, Except.ok githubData) =>
        afterFetch config w (startEv ++ jEv ++ jOpenEv ++ gEv) jiraData githubData

/-! ## Event observations -/

/-- Is this a URL-open (browser) call? -/
def isUrlOpenEv : Event → Bool
  | Event.urlOpen _ => true
  | _ => false

/-- Is this the report file write? -/
def isFileWriteEv : Event → Bool
  | Event.fileWrite _ _ => true
  | _ => false

/-- Is this an `open -a` (viewer application) call? -/
def isAppOpenEv : Event → Bool
  | Event.appOpen _ _ => true
  | _ => false

/-- Is this an `mdimport` (Spotlight indexer) call? -/
def isIndexEv : Event → Bool
  | Event.spotlightIndex _ => true
  | _ => false

/-- Is this an HTTP request (a curl call)? -/
def isHttpGetEv : Event → Bool
  | Event.httpGet _ => true
  | _ => false

/-- Is this the HTTP request to the code host (a URL under the GitHub
API base)? -/
def isGithubGetEv : Event → Bool
  | Event.httpGet u => CONFIG.github.baseUrl.data.isPrefixOf u.data
  | _ => false

/-- Is this a notification with the given title? -/
def isNotifyTitled (t : String) : Event → Bool
  | Event.notify t' _ _ => t' = t
  | _ => false

/-- The messages of all notifications with the given title, in
order. -/
def notifyMessages (t : String) (l : List Event) : List String :=
  l.filterMap (fun e =>
    match e with
    | Event.notify t' m _ => if t' = t then some m else none
    | _ => none)

/-- Number of URL-open calls in a trace. -/
def countUrlOpen (l : List Event) : Nat := l.countP isUrlOpenEv

/-- Number of file-write calls in a trace. -/
def countFileWrite (l : List Event) : Nat := l.countP isFileWriteEv

/-- Number of app-open calls in a trace. -/
def countAppOpen (l : List Event) : Nat := l.countP isAppOpenEv

/-- Number of indexer calls in a trace. -/
def countIndex (l : List Event) : Nat := l.countP isIndexEv

/-- Number of HTTP requests in a trace. -/
def countHttpGet (l : List Event) : Nat := l.countP isHttpGetEv

/-! ## Concrete fixtures -/

/-- Sample ticket 1. -/
def tkt1 : JiraTicket :=
  { key := "PROJ-1", fields := { summary := "Fix login page alignment", status := { name := "Open" } } }

/-- Sample ticket 2. -/
def tkt2 : JiraTicket :=
  { key := "PROJ-2", fields := { summary := "Add dark mode support", status := { name := "Open" } } }

/-- Sample ticket 3. -/
def tkt3 : JiraTicket :=
  { key := "PROJ-3", fields := { summary := "Update docs", status := { name := "Open" } } }

/-- Sample ticket 4. -/
def tkt4 : JiraTicket :=
  { key := "PROJ-4", fields := { summary := "Refactor client", status := { name := "Open" } } }

/-- Sample pull request 1. -/
def pr1 : PullRequest :=
  { number := 1, title := "Fix login page alignment issues"
    html_url := some "https://github.com/myusername/myrepo/pull/1"
    user := { login := "developer1" }, created_at := "2023-05-01T12:00:00Z" }

/-- Sample pull request 2. -/
def pr2 : PullRequest :=
  { number := 2, title := "Implement dark mode support"
    html_url := some "https://github.com/myusername/myrepo/pull/2"
    user := { login := "developer2" }, created_at := "2023-05-02T10:30:00Z" }

/-- A successful JIRA response carrying the given issues field. -/
def jiraRespOk (issues : Option (List JiraTicket)) : HttpResponse JiraJson :=
  { status := 200, rawBody := "(jira body)", parsed := Except.ok { issues := issues } }

/-- A successful GitHub response carrying the given pull requests. -/
def githubRespOk (prs : List PullRequest) : HttpResponse (List PullRequest) :=
  { status := 200, rawBody := "(github body)", parsed := Except.ok prs }

/-- A fully healthy world: both tokens stored, one issue, one PR. -/
def wOk : World :=
  { jiraLookup := SecLookup.found "jira-tok"
    githubLookup := SecLookup.found "gh-tok"
    jiraResponse := jiraRespOk (some [tkt1])
    githubResponse := githubRespOk [pr1]
    home := "/Users/me"
    now := "2025-01-01T00:00:00.000Z" }

/-- The summary text as the specification words it: at most the first
3 issues and first 3 change-requests in upstream order, an
"...and N more" line exactly when the count exceeds 3 (N = count − 3),
and an explicit "none found" line for a zero count. -/
def summarySpec (d : CombinedData) : String :=
  (if d.jiraTickets.length = 0 then "No JIRA tickets found.\n"
   else
     "JIRA Tickets (" ++ toString d.jiraTickets.length ++ "):\n" ++
     String.join ((d.jiraTickets.take 3).map ticketLine) ++
     (if 3 < d.jiraTickets.length then
        "• ...and " ++ toString (d.jiraTickets.length - 3) ++ " more\n" else "")) ++
  (if d.githubPullRequests.length = 0 then "\nNo GitHub pull requests found."
   else
     "\nGitHub PRs (" ++ toString d.githubPullRequests.length ++ "):\n" ++
     String.join ((d.githubPullRequests.take 3).map prLine) ++
     (if 3 < d.githubPullRequests.length then
        "• ...and " ++ toString (d.githubPullRequests.length - 3) ++ " more\n" else ""))

/-- `main()` with no options object. -/
def optsDefault : Options := {}

/-- `main({summaryOnly: true})`, every other option left to its
default. -/
def optsSummary : Options := { summaryOnly := some true }

/-- A world whose tracker answers HTTP 500 with a well-formed JSON
error body (no `issues` field). -/
def w500 : World :=
  { wOk with
    jiraResponse :=
      { status := 500
        rawBody := "\x7b\"errorMessages\":[\"Internal server error\"]\x7d"
        parsed := Except.ok { issues := none } } }

/-- A world whose tracker answers with a body that is not JSON. -/
def wBadJson : World :=
  { wOk with
    jiraResponse :=
      { status := 503
        rawBody := "<html>Service Unavailable</html>"
        parsed := Except.error "JSON Parse error: Unexpected token: <" } }

/-- A world where the tracker succeeds but the code host's body is
not JSON. -/
def wGhBadJson : World :=
  { wOk with
    githubResponse :=
      { status := 502
        rawBody := "Bad gateway"
        parsed := Except.error "JSON Parse error: Unexpected identifier: Bad" } }

/-- A world with no JIRA token stored in the keychain. -/
def wNoJiraTok : World :=
  { wOk with jiraLookup := SecLookup.errNotFound }

/-- A world with no GitHub token stored in the keychain. -/
def wNoGhTok : World :=
  { wOk with githubLookup := SecLookup.errNotFound }

/-- A world whose tracker returns four issues and whose code host
returns no pull requests. -/
def wFourZero : World :=
  { wOk with
    jiraResponse := jiraRespOk (some [tkt1, tkt2, tkt3, tkt4])
    githubResponse := githubRespOk [] }

/-- A world whose tracker body parses as JSON but has no `issues`
field (status 200). -/
def wNoIssuesField : World :=
  { wOk with jiraResponse := jiraRespOk none }

/-! ## Helper lemmas: normal forms of the fetches -/

theorem getTickets_ok_eq (w : World) (t : String) (jd : JiraJson)
    (h1 : w.jiraLookup = SecLookup.found t) (h2 : ¬ jsTrim t = "")
    (hp : w.jiraResponse.parsed = Except.ok jd) :
    JIRA.getTickets w = ([Event.httpGet JIRA.searchUrl], Except.ok jd) := by
  unfold JIRA.getTickets Keychain.getPassword
  rw [h1]
  simp [h2, hp]

theorem getTickets_parseErr_eq (w : World) (t : String) (m : String)
    (h1 : w.jiraLookup = SecLookup.found t) (h2 : ¬ jsTrim t = "")
    (hp : w.jiraResponse.parsed = Except.error m) :
    JIRA.getTickets w =
      ([Event.httpGet JIRA.searchUrl],
       Except.error ⟨"Error fetching JIRA tickets: " ++ m⟩) := by
  unfold JIRA.getTickets Keychain.getPassword
  rw [h1]
  simp [h2, hp]

theorem getTickets_noTok_eq (w : World)
    (h : w.jiraLookup = SecLookup.errNotFound) :
    JIRA.getTickets w =
      ([Event.dialog CONFIG.jira.keychainItem],
       Except.error ⟨"No JIRA API token found in Keychain"⟩) := by
  unfold JIRA.getTickets Keychain.getPassword
  rw [h]
  simp

theorem getPullRequests_ok_eq (w : World) (u r t : String) (gd : List PullRequest)
    (h1 : w.githubLookup = SecLookup.found t) (h2 : ¬ jsTrim t = "")
    (hp : w.githubResponse.parsed = Except.ok gd) :
    GitHub.getPullRequests w u r =
      ([Event.httpGet (GitHub.pullsUrl
          (if u = "" then CONFIG.github.defaultUsername else u)
          (if r = "" then CONFIG.github.defaultRepo else r))],
       Except.ok gd) := by
  unfold GitHub.getPullRequests Keychain.getPassword
  rw [h1]
  simp [h2, hp]

theorem getPullRequests_parseErr_eq (w : World) (u r t m : String)
    (h1 : w.githubLookup = SecLookup.found t) (h2 : ¬ jsTrim t = "")
    (hp : w.githubResponse.parsed = Except.error m) :
    GitHub.getPullRequests w u r =
      ([Event.httpGet (GitHub.pullsUrl
          (if u = "" then CONFIG.github.defaultUsername else u)
          (if r = "" then CONFIG.github.defaultRepo else r))],
       Except.error ⟨"Error fetching GitHub pull requests: " ++ m⟩) := by
  unfold GitHub.getPullRequests Keychain.getPassword
  rw [h1]
  simp [h2, hp]

theorem getPullRequests_noTok_eq (w : World) (u r : String)
    (h : w.githubLookup = SecLookup.errNotFound) :
    GitHub.getPullRequests w u r =
      ([Event.dialog CONFIG.github.keychainItem],
       Except.error ⟨"No GitHub API token found in Keychain"⟩) := by
  unfold GitHub.getPullRequests Keychain.getPassword
  rw [h]
  simp

/-! ## Helper lemmas: counting over the pieces -/

theorem countP_getTickets_fst (p : Event → Bool)
    (hd : ∀ s, p (Event.dialog s) = false)
    (hg : ∀ u, p (Event.httpGet u) = false) (w : World) :
    List.countP p (JIRA.getTickets w).fst = 0 := by
  unfold JIRA.getTickets Keychain.getPassword
  cases w.jiraLookup <;> cases w.jiraResponse.parsed <;> dsimp only <;>
    split_ifs <;>
    simp only [List.countP_cons, List.countP_nil, List.countP_append, hd, hg,
      Bool.false_eq_true, if_false, Nat.add_zero, Nat.zero_add]

theorem countP_getPullRequests_fst (p : Event → Bool)
    (hd : ∀ s, p (Event.dialog s) = false)
    (hg : ∀ u, p (Event.httpGet u) = false) (w : World) (u r : String) :
    List.countP p (GitHub.getPullRequests w u r).fst = 0 := by
  unfold GitHub.getPullRequests Keychain.getPassword
  cases w.githubLookup <;> cases w.githubResponse.parsed <;> dsimp only <;>
    split_ifs <;>
    simp only [List.countP_cons, List.countP_nil, List.countP_append, hd, hg,
      Bool.false_eq_true, if_false, Nat.add_zero, Nat.zero_add]

theorem countP_jiraOpenEvents_none (p : Event → Bool)
    (hu : ∀ u, p (Event.urlOpen u) = false) (c : Config) (jd : JiraJson) :
    List.countP p (jiraOpenEvents c jd) = 0 := by
  unfold jiraOpenEvents
  split_ifs
  · cases jd.issues with
    | none => simp
    | some l =>
        dsimp only
        split_ifs
        · rw [List.countP_map]
          refine List.countP_eq_zero.mpr ?_
          intro t _
          simpa using hu (JIRA.getTicketUrl t.key)
        · simp
  · simp

theorem countP_prOpenEvents_none (p : Event → Bool)
    (hu : ∀ u, p (Event.urlOpen u) = false) (c : Config) (gd : List PullRequest) :
    List.countP p (prOpenEvents c gd) = 0 := by
  unfold prOpenEvents
  split_ifs
  · refine List.countP_eq_zero.mpr ?_
    intro e he
    rcases List.mem_filterMap.mp he with ⟨pr, _, hpr⟩
    rcases Option.map_eq_some'.mp hpr with ⟨v, _, hv⟩
    rw [← hv]
    simp [hu]
  · simp

theorem countUrlOpen_jiraOpenEvents (c : Config) (jd : JiraJson) (l : List JiraTicket)
    (hb : c.openInBrowser = true) (hjd : jd.issues = some l) :
    countUrlOpen (jiraOpenEvents c jd) = l.length := by
  unfold jiraOpenEvents countUrlOpen
  rw [hb, hjd, if_pos rfl]
  dsimp only
  cases l with
  | nil => simp
  | cons a as =>
      rw [if_pos (by simp : (a :: as).length > 0)]
      rw [List.countP_map]
      exact List.countP_eq_length.mpr (fun t _ => by simp [isUrlOpenEv, Function.comp])

theorem countUrlOpen_prOpenEvents (c : Config) (gd : List PullRequest)
    (hb : c.openInBrowser = true) :
    countUrlOpen (prOpenEvents c gd) = prsWithUrl gd := by
  unfold prOpenEvents countUrlOpen prsWithUrl
  rw [hb]
  cases gd with
  | nil => simp
  | cons a as =>
      rw [if_pos (by simp)]
      rw [← List.map_filterMap, List.countP_map]
      exact List.countP_eq_length.mpr (fun e _ => by simp [isUrlOpenEv, Function.comp])

/-! ## Helper lemmas: normal forms of `mainRun` -/

theorem mainRun_jiraErr_eq (opts : Options) (w : World) (jEv : List Event) (e : JsError)
    (h : JIRA.getTickets w = (jEv, Except.error e)) :
    mainRun opts w =
      ([Event.notify "Data Retrieval Started" "Fetching data from JIRA and GitHub..." none] ++
        jEv ++ [errNotifyEv e], Except.error e) := by
  unfold mainRun System.displayNotification
  rw [h]

theorem mainRun_ghErr_eq (opts : Options) (w : World) (jEv gEv : List Event)
    (jd : JiraJson) (e : JsError)
    (hj : JIRA.getTickets w = (jEv, Except.ok jd))
    (hg : GitHub.getPullRequests w (Config.resolve opts).githubUsername
            (Config.resolve opts).githubRepo = (gEv, Except.error e)) :
    mainRun opts w =
      ([Event.notify "Data Retrieval Started" "Fetching data from JIRA and GitHub..." none] ++
        jEv ++ jiraOpenEvents (Config.resolve opts) jd ++ gEv ++ [errNotifyEv e],
       Except.error e) := by
  unfold mainRun System.displayNotification
  rw [hj]
  dsimp only
  rw [hg]

theorem mainRun_ok_eq (opts : Options) (w : World) (jEv gEv : List Event)
    (jd : JiraJson) (gd : List PullRequest)
    (hj : JIRA.getTickets w = (jEv, Except.ok jd))
    (hg : GitHub.getPullRequests w (Config.resolve opts).githubUsername
            (Config.resolve opts).githubRepo = (gEv, Except.ok gd)) :
    mainRun opts w =
      afterFetch (Config.resolve opts) w
        ([Event.notify "Data Retrieval Started" "Fetching data from JIRA and GitHub..." none] ++
          jEv ++ jiraOpenEvents (Config.resolve opts) jd ++ gEv) jd gd := by
  unfold mainRun System.displayNotification
  rw [hj]
  dsimp only
  rw [hg]

/-! ## Helper lemmas: normal forms of `afterFetch` -/

theorem afterFetch_summary_eq (c : Config) (w : World) (preEv : List Event)
    (jd : JiraJson) (gd : List PullRequest)
    (hs : c.summaryOnly = true) (hf : ¬ c.outputFilePath = "") :
    afterFetch c w preEv jd gd =
      (preEv ++ prOpenEvents c gd ++
        [Event.shellMkdir (System.dirnameOf (System.expandTilde w.home c.outputFilePath)),
         Event.fileWrite (System.expandTilde w.home c.outputFilePath)
           (jsonStringify (combinedOf c w jd gd))],
       Except.ok (combinedOf c w jd gd)) := by
  unfold afterFetch System.saveDataToFile
  rw [hs]
  simp [hf]

theorem afterFetch_full_eq (c : Config) (w : World) (preEv : List Event)
    (jd : JiraJson) (gd : List PullRequest)
    (hs : c.summaryOnly = false) :
    afterFetch c w preEv jd gd =
      (preEv ++ prOpenEvents c gd ++
        (if c.richNotifications then
           [Event.notify "Summary" (summaryText (combinedOf c w jd gd)) (some "Glass")]
         else []) ++
        [Event.shellMkdir (System.dirnameOf (System.expandTilde w.home c.outputFilePath)),
         Event.fileWrite (System.expandTilde w.home c.outputFilePath)
           (jsonStringify (combinedOf c w jd gd)),
         Event.appOpen c.outputApp (System.expandTilde w.home c.outputFilePath),
         Event.spotlightIndex (System.expandTilde w.home c.outputFilePath),
         Event.notify "Data Retrieval Complete"
           ("Retrieved " ++ toString (ticketCountOf jd) ++ " JIRA tickets and " ++
             toString gd.length ++ " GitHub pull requests.") (some "Glass")],
       Except.ok (combinedOf c w jd gd)) := by
  unfold afterFetch System.saveDataToFile System.indexWithSpotlight System.displayNotification
    showRichSummaryNotification
  rw [hs]
  simp [CONFIG, System.displayNotification]

/-! ## Helper lemmas: counters over appends and small traces -/

theorem countUrlOpen_append (a b : List Event) :
    countUrlOpen (a ++ b) = countUrlOpen a + countUrlOpen b :=
  List.countP_append _ _ _

theorem countFileWrite_append (a b : List Event) :
    countFileWrite (a ++ b) = countFileWrite a + countFileWrite b :=
  List.countP_append _ _ _

theorem countAppOpen_append (a b : List Event) :
    countAppOpen (a ++ b) = countAppOpen a + countAppOpen b :=
  List.countP_append _ _ _

theorem countIndex_append (a b : List Event) :
    countIndex (a ++ b) = countIndex a + countIndex b :=
  List.countP_append _ _ _

theorem countHttpGet_append (a b : List Event) :
    countHttpGet (a ++ b) = countHttpGet a + countHttpGet b :=
  List.countP_append _ _ _

theorem afterFetch_snd (c : Config) (w : World) (preEv : List Event)
    (jd : JiraJson) (gd : List PullRequest) :
    (afterFetch c w preEv jd gd).snd = Except.ok (combinedOf c w jd gd) := by
  unfold afterFetch
  dsimp only
  split_ifs <;> rfl

/-! ## C3 -/

/-- C3: if the credential for one side is absent from the keychain,
that side's fetch fails with the missing-credential error and issues
no HTTP request at all (the failure short-circuits before curl
runs). -/
theorem C3_missing_credential_short_circuits (w : World) :
    (w.jiraLookup = SecLookup.errNotFound →
      (JIRA.getTickets w).snd = Except.error ⟨"No JIRA API token found in Keychain"⟩ ∧
      countHttpGet (JIRA.getTickets w).fst = 0) ∧
    (∀ u r : String, w.githubLookup = SecLookup.errNotFound →
      (GitHub.getPullRequests w u r).snd =
        Except.error ⟨"No GitHub API token found in Keychain"⟩ ∧
      countHttpGet (GitHub.getPullRequests w u r).fst = 0) := by
  constructor
  · intro h
    rw [getTickets_noTok_eq w h]
    exact ⟨rfl, rfl⟩
  · intro u r h
    rw [getPullRequests_noTok_eq w u r h]
    exact ⟨rfl, rfl⟩

/-- Witness for C3 at concrete worlds: a missing JIRA token and a
missing GitHub token. -/
theorem C3_missing_credential_short_circuits_witness :
    (JIRA.getTickets wNoJiraTok).snd =
      Except.error ⟨"No JIRA API token found in Keychain"⟩ ∧
    countHttpGet (JIRA.getTickets wNoJiraTok).fst = 0 ∧
    (GitHub.getPullRequests wNoGhTok "myusername" "myrepo").snd =
      Except.error ⟨"No GitHub API token found in Keychain"⟩ ∧
    countHttpGet (GitHub.getPullRequests wNoGhTok "myusername" "myrepo").fst = 0 := by
  refine ⟨((C3_missing_credential_short_circuits wNoJiraTok).1 rfl).1,
          ((C3_missing_credential_short_circuits wNoJiraTok).1 rfl).2,
          ((C3_missing_credential_short_circuits wNoGhTok).2 "myusername" "myrepo" rfl).1,
          ((C3_missing_credential_short_circuits wNoGhTok).2 "myusername" "myrepo" rfl).2⟩

/-! ## C4 -/

/-- C4: when the tracker fetch succeeds but the change-request fetch
then fails, the whole run fails with that error and no file write is
performed. -/
theorem C4_gh_failure_no_partial_write (opts : Options) (w : World)
    (tj : String) (jd : JiraJson) (gEv : List Event) (e : JsError)
    (hjl : w.jiraLookup = SecLookup.found tj) (hjt : ¬ jsTrim tj = "")
    (hjp : w.jiraResponse.parsed = Except.ok jd)
    (hg : GitHub.getPullRequests w (Config.resolve opts).githubUsername
            (Config.resolve opts).githubRepo = (gEv, Except.error e)) :
    (mainRun opts w).snd = Except.error e ∧
    countFileWrite (mainRun opts w).fst = 0 := by
  have hj := getTickets_ok_eq w tj jd hjl hjt hjp
  rw [mainRun_ghErr_eq opts w _ gEv jd e hj hg]
  refine ⟨rfl, ?_⟩
  unfold countFileWrite
  rw [List.countP_append, List.countP_append, List.countP_append, List.countP_append]
  have h1 : List.countP isFileWriteEv gEv = 0 := by
    have hfst : gEv = (GitHub.getPullRequests w (Config.resolve opts).githubUsername
        (Config.resolve opts).githubRepo).fst := by rw [hg]
    rw [hfst]
    exact countP_getPullRequests_fst isFileWriteEv (fun s => rfl) (fun u => rfl) w _ _
  rw [h1, countP_jiraOpenEvents_none isFileWriteEv (fun u => rfl)]
  rfl

/-- Witness for C4: a healthy tracker but a code host returning a
non-JSON body. -/
theorem C4_gh_failure_no_partial_write_witness :
    (mainRun optsDefault wGhBadJson).snd =
      Except.error ⟨"Error fetching GitHub pull requests: JSON Parse error: Unexpected identifier: Bad"⟩ ∧
    countFileWrite (mainRun optsDefault wGhBadJson).fst = 0 := by
  exact C4_gh_failure_no_partial_write optsDefault wGhBadJson "jira-tok"
    { issues := some [tkt1] } [Event.httpGet (GitHub.pullsUrl "myusername" "myrepo")]
    ⟨"Error fetching GitHub pull requests: JSON Parse error: Unexpected identifier: Bad"⟩
    rfl (by decide) rfl
    (getPullRequests_parseErr_eq wGhBadJson "myusername" "myrepo" "gh-tok"
      "JSON Parse error: Unexpected identifier: Bad" rfl (by decide) rfl)

/-! ## C5 -/

/-- C5: for every pair of successful upstream responses, the combined
report's issue and change-request sequences are exactly the upstream
sequences, in order, with equal lengths. -/
theorem C5_report_preserves_upstream (opts : Options) (w : World)
    (tj tg : String) (jd : JiraJson) (l : List JiraTicket) (gd : List PullRequest)
    (hjl : w.jiraLookup = SecLookup.found tj) (hjt : ¬ jsTrim tj = "")
    (hjp : w.jiraResponse.parsed = Except.ok jd) (hiss : jd.issues = some l)
    (hgl : w.githubLookup = SecLookup.found tg) (hgt : ¬ jsTrim tg = "")
    (hgp : w.githubResponse.parsed = Except.ok gd) :
    ∃ c : CombinedData, (mainRun opts w).snd = Except.ok c ∧
      c.jiraTickets = l ∧ c.githubPullRequests = gd ∧
      c.jiraTickets.length = l.length ∧ c.githubPullRequests.length = gd.length := by
  have hj := getTickets_ok_eq w tj jd hjl hjt hjp
  have hg := getPullRequests_ok_eq w (Config.resolve opts).githubUsername
    (Config.resolve opts).githubRepo tg gd hgl hgt hgp
  rw [mainRun_ok_eq opts w _ _ jd gd hj hg]
  refine ⟨combinedOf (Config.resolve opts) w jd gd, afterFetch_snd _ _ _ _ _, ?_, rfl, ?_, rfl⟩
  · simp [combinedOf, hiss]
  · simp [combinedOf, hiss]

/-- Witness for C5 at the healthy world. -/
theorem C5_report_preserves_upstream_witness :
    ∃ c : CombinedData, (mainRun optsDefault wOk).snd = Except.ok c ∧
      c.jiraTickets = [tkt1] ∧ c.githubPullRequests = [pr1] ∧
      c.jiraTickets.length = [tkt1].length ∧ c.githubPullRequests.length = [pr1].length :=
  C5_report_preserves_upstream optsDefault wOk "jira-tok" "gh-tok"
    { issues := some [tkt1] } [tkt1] [pr1] rfl (by decide) rfl rfl rfl (by decide) rfl

/-! ## C7 -/

/-- C7 counterexample: the keychain accessor does NOT distinguish "no
entry" from "store mechanism failed" — both return the same value, the
empty string, and neither raises a distinct store error. -/
theorem C7_counterexample :
    Keychain.getPassword SecLookup.errStoreFailure "JIRA API Token" =
      Keychain.getPassword SecLookup.errNotFound "JIRA API Token" ∧
    (Keychain.getPassword SecLookup.errStoreFailure "JIRA API Token").snd = "" :=
  ⟨rfl, rfl⟩

/-- C7 amended: `Keychain.getPassword` returns the empty string (after
showing the keychain-error dialog) both when the store has no entry
and when the lookup mechanism fails; the two outcomes are identical
and no distinct store error is raised.  A present entry returns its
trimmed value with no dialog. -/
theorem C7_amended_absent_and_failure_indistinguishable (serviceName : String) :
    Keychain.getPassword SecLookup.errNotFound serviceName =
      ([Event.dialog serviceName], "") ∧
    Keychain.getPassword SecLookup.errStoreFailure serviceName =
      ([Event.dialog serviceName], "") ∧
    (∀ pw : String, Keychain.getPassword (SecLookup.found pw) serviceName = ([], jsTrim pw)) :=
  ⟨rfl, rfl, fun _ => rfl⟩

/-! ## C10 -/

/-- C10: a tracker body that parses as JSON but has no `issues` field
is treated as a success with zero issues — the run succeeds, the
reported ticket count (`jiraData.issues ? length : 0`) is 0, and the
report's issue sequence is empty. -/
theorem C10_missing_issues_field_is_empty_success (opts : Options) (w : World)
    (tj tg : String) (jd : JiraJson) (gd : List PullRequest)
    (hjl : w.jiraLookup = SecLookup.found tj) (hjt : ¬ jsTrim tj = "")
    (hjp : w.jiraResponse.parsed = Except.ok jd) (hiss : jd.issues = none)
    (hgl : w.githubLookup = SecLookup.found tg) (hgt : ¬ jsTrim tg = "")
    (hgp : w.githubResponse.parsed = Except.ok gd) :
    ∃ c : CombinedData, (mainRun opts w).snd = Except.ok c ∧
      c.jiraTickets = [] ∧ ticketCountOf jd = 0 := by
  have hj := getTickets_ok_eq w tj jd hjl hjt hjp
  have hg := getPullRequests_ok_eq w (Config.resolve opts).githubUsername
    (Config.resolve opts).githubRepo tg gd hgl hgt hgp
  rw [mainRun_ok_eq opts w _ _ jd gd hj hg]
  refine ⟨combinedOf (Config.resolve opts) w jd gd, afterFetch_snd _ _ _ _ _, ?_, ?_⟩
  · simp [combinedOf, hiss]
  · simp [ticketCountOf, hiss]

/-- Witness for C10: an HTTP-200 body with no `issues` field. -/
theorem C10_missing_issues_field_is_empty_success_witness :
    ∃ c : CombinedData, (mainRun optsDefault wNoIssuesField).snd = Except.ok c ∧
      c.jiraTickets = [] ∧ ticketCountOf { issues := none } = 0 :=
  C10_missing_issues_field_is_empty_success optsDefault wNoIssuesField
    "jira-tok" "gh-tok" { issues := none } [pr1]
    rfl (by decide) rfl rfl rfl (by decide) rfl

/-! ## C1 -/

/-- C1 counterexample: with `summaryOnly=true` and every other option
at its default (`openInBrowser` defaults to true) and non-empty
upstream results (one issue, one PR), the run performs URL-open calls
— not zero: the browser-open blocks run before the summary-only check
and do not consult `summaryOnly`. -/
theorem C1_counterexample :
    ¬ countUrlOpen (mainRun optsSummary wOk).fst = 0 := by
  have h2 : countUrlOpen (mainRun optsSummary wOk).fst = 2 := rfl
  simp [h2]

/-- C1 amended: with `summaryOnly=true` and other options at their
defaults, a successful run performs zero app-open calls, zero indexer
calls and exactly one file-write call, but — because `openInBrowser`
defaults to true and is not disabled by `summaryOnly` — one URL-open
call per issue plus one per change-request carrying a truthy URL. -/
theorem C1_amended_summaryOnly_sideeffects (w : World) (tj tg : String)
    (jd : JiraJson) (l : List JiraTicket) (gd : List PullRequest)
    (hjl : w.jiraLookup = SecLookup.found tj) (hjt : ¬ jsTrim tj = "")
    (hjp : w.jiraResponse.parsed = Except.ok jd) (hiss : jd.issues = some l)
    (hgl : w.githubLookup = SecLookup.found tg) (hgt : ¬ jsTrim tg = "")
    (hgp : w.githubResponse.parsed = Except.ok gd) :
    countUrlOpen (mainRun optsSummary w).fst = l.length + prsWithUrl gd ∧
    countAppOpen (mainRun optsSummary w).fst = 0 ∧
    countIndex (mainRun optsSummary w).fst = 0 ∧
    countFileWrite (mainRun optsSummary w).fst = 1 := by
  have hj := getTickets_ok_eq w tj jd hjl hjt hjp
  have hg := getPullRequests_ok_eq w (Config.resolve optsSummary).githubUsername
    (Config.resolve optsSummary).githubRepo tg gd hgl hgt hgp
  have hs : (Config.resolve optsSummary).summaryOnly = true := rfl
  have hb : (Config.resolve optsSummary).openInBrowser = true := rfl
  have hf : ¬ (Config.resolve optsSummary).outputFilePath = "" := by decide
  rw [mainRun_ok_eq _ _ _ _ _ _ hj hg, afterFetch_summary_eq _ _ _ _ _ hs hf]
  refine ⟨?_, ?_, ?_, ?_⟩
  · simp only [countUrlOpen_append]
    rw [countUrlOpen_jiraOpenEvents _ _ l hb hiss, countUrlOpen_prOpenEvents _ _ hb]
    have e1 : countUrlOpen [Event.notify "Data Retrieval Started"
      "Fetching data from JIRA and GitHub..." none] = 0 := rfl
    have e2 : countUrlOpen [Event.httpGet JIRA.searchUrl] = 0 := rfl
    have e3 : ∀ a b : Event, countUrlOpen [a, b] = countUrlOpen [a] + countUrlOpen [b] := by
      intro a b
      simp [countUrlOpen, List.countP_cons]
      omega
    rw [e1, e2]
    have e4 : countUrlOpen [Event.httpGet (GitHub.pullsUrl
        (if (Config.resolve optsSummary).githubUsername = "" then
          CONFIG.github.defaultUsername else (Config.resolve optsSummary).githubUsername)
        (if (Config.resolve optsSummary).githubRepo = "" then
          CONFIG.github.defaultRepo else (Config.resolve optsSummary).githubRepo))] = 0 := rfl
    rw [e4]
    have e5 : countUrlOpen [Event.shellMkdir (System.dirnameOf (System.expandTilde w.home
        (Config.resolve optsSummary).outputFilePath)),
        Event.fileWrite (System.expandTilde w.home (Config.resolve optsSummary).outputFilePath)
          (jsonStringify (combinedOf (Config.resolve optsSummary) w jd gd))] = 0 := rfl
    rw [e5]
    omega
  · unfold countAppOpen
    simp only [List.countP_append]
    rw [countP_jiraOpenEvents_none isAppOpenEv (fun u => rfl),
      countP_prOpenEvents_none isAppOpenEv (fun u => rfl)]
    rfl
  · unfold countIndex
    simp only [List.countP_append]
    rw [countP_jiraOpenEvents_none isIndexEv (fun u => rfl),
      countP_prOpenEvents_none isIndexEv (fun u => rfl)]
    rfl
  · unfold countFileWrite
    simp only [List.countP_append]
    rw [countP_jiraOpenEvents_none isFileWriteEv (fun u => rfl),
      countP_prOpenEvents_none isFileWriteEv (fun u => rfl)]
    rfl

/-- Witness for the amended C1 at the healthy world: 1 issue and 1 PR
give 2 URL-opens, no app-open, no indexing, one file write. -/
theorem C1_amended_summaryOnly_sideeffects_witness :
    countUrlOpen (mainRun optsSummary wOk).fst = [tkt1].length + prsWithUrl [pr1] ∧
    countAppOpen (mainRun optsSummary wOk).fst = 0 ∧
    countIndex (mainRun optsSummary wOk).fst = 0 ∧
    countFileWrite (mainRun optsSummary wOk).fst = 1 :=
  C1_amended_summaryOnly_sideeffects wOk "jira-tok" "gh-tok"
    { issues := some [tkt1] } [tkt1] [pr1]
    rfl (by decide) rfl rfl rfl (by decide) rfl

/-! ## C2 -/

/-- C2 counterexample: an upstream response with HTTP status 500 whose
body is well-formed JSON is accepted as a success by the fetch — the
status is never inspected (curl -s hands the body over regardless), so
no UpstreamError is produced and nothing retains the status code. -/
theorem C2_counterexample :
    w500.jiraResponse.status = 500 ∧
    (JIRA.getTickets w500).snd = Except.ok { issues := none } :=
  ⟨rfl, rfl⟩

/-- C2 amended: the fetches never inspect the HTTP status or raw body
— a response whose body parses as JSON succeeds whatever its status;
only a malformed-JSON body makes the fetch fail, and the failure
carries an error message wrapping the parser's message (not the status
code or the raw body), after which the run fails with that same
error. -/
theorem C2_amended_status_ignored_parse_decides (opts : Options) (w : World)
    (tj tg m : String) :
    (∀ s : Nat, ∀ b : String, JIRA.getTickets
        { w with jiraResponse :=
            { status := s, rawBody := b, parsed := w.jiraResponse.parsed } } =
      JIRA.getTickets w) ∧
    (∀ s : Nat, ∀ b u r : String, GitHub.getPullRequests
        { w with githubResponse :=
            { status := s, rawBody := b, parsed := w.githubResponse.parsed } } u r =
      GitHub.getPullRequests w u r) ∧
    (w.jiraLookup = SecLookup.found tj → ¬ jsTrim tj = "" →
      w.jiraResponse.parsed = Except.error m →
      (JIRA.getTickets w).snd = Except.error ⟨"Error fetching JIRA tickets: " ++ m⟩ ∧
      (mainRun opts w).snd = Except.error ⟨"Error fetching JIRA tickets: " ++ m⟩) ∧
    (∀ jd : JiraJson, w.jiraLookup = SecLookup.found tj → ¬ jsTrim tj = "" →
      w.jiraResponse.parsed = Except.ok jd →
      w.githubLookup = SecLookup.found tg → ¬ jsTrim tg = "" →
      w.githubResponse.parsed = Except.error m →
      (mainRun opts w).snd =
        Except.error ⟨"Error fetching GitHub pull requests: " ++ m⟩) := by
  refine ⟨fun s b => rfl, fun s b u r => rfl, ?_, ?_⟩
  · intro hjl hjt hp
    have he := getTickets_parseErr_eq w tj m hjl hjt hp
    refine ⟨by rw [he], ?_⟩
    rw [mainRun_jiraErr_eq opts w _ _ he]
  · intro jd hjl hjt hjp hgl hgt hgp
    have hj := getTickets_ok_eq w tj jd hjl hjt hjp
    have hgErr := getPullRequests_parseErr_eq w (Config.resolve opts).githubUsername
      (Config.resolve opts).githubRepo tg m hgl hgt hgp
    rw [mainRun_ghErr_eq opts w _ _ jd _ hj hgErr]

/-- Witness for the amended C2: a tracker serving non-JSON makes the
fetch and the run fail with the wrapped parse message; a code host
serving non-JSON after a healthy tracker fetch makes the run fail
likewise. -/
theorem C2_amended_status_ignored_parse_decides_witness :
    (JIRA.getTickets wBadJson).snd =
      Except.error ⟨"Error fetching JIRA tickets: JSON Parse error: Unexpected token: <"⟩ ∧
    (mainRun optsDefault wBadJson).snd =
      Except.error ⟨"Error fetching JIRA tickets: JSON Parse error: Unexpected token: <"⟩ ∧
    (mainRun optsDefault wGhBadJson).snd =
      Except.error ⟨"Error fetching GitHub pull requests: JSON Parse error: Unexpected identifier: Bad"⟩ := by
  refine ⟨?_, ?_, ?_⟩
  · exact ((C2_amended_status_ignored_parse_decides optsDefault wBadJson "jira-tok" "gh-tok"
      "JSON Parse error: Unexpected token: <").2.2.1 rfl (by decide) rfl).1
  · exact ((C2_amended_status_ignored_parse_decides optsDefault wBadJson "jira-tok" "gh-tok"
      "JSON Parse error: Unexpected token: <").2.2.1 rfl (by decide) rfl).2
  · exact (C2_amended_status_ignored_parse_decides optsDefault wGhBadJson "jira-tok" "gh-tok"
      "JSON Parse error: Unexpected identifier: Bad").2.2.2 { issues := some [tkt1] }
      rfl (by decide) rfl rfl (by decide) rfl

/-! ## C6 -/

/-- C6 counterexample: in a default successful run the first
browser-open sits at trace index 2 while the change-request HTTP
request only happens at index 3 — a browser-open call occurs before
the change-request fetch completes. -/
theorem C6_counterexample :
    (mainRun optsDefault wOk).fst.findIdx isUrlOpenEv = 2 ∧
    (mainRun optsDefault wOk).fst.findIdx isGithubGetEv = 3 ∧
    (2 : Nat) < 3 :=
  ⟨rfl, rfl, by decide⟩

/-- C6 amended: the file write, app-open, indexing, and the summary
notification all happen strictly after both fetches and assembly (the
delivery suffix `p3` holds exactly one file write, one app-open, one
indexing call, no HTTP request and no browser-open); browser URL-opens
however belong to the fetch phase: the issue opens (one per issue, a
positive number) sit before the change-request fetch's events. -/
theorem C6_amended_delivery_ordering (opts : Options) (w : World) (tj tg : String)
    (jd : JiraJson) (l : List JiraTicket) (gd : List PullRequest)
    (hjl : w.jiraLookup = SecLookup.found tj) (hjt : ¬ jsTrim tj = "")
    (hjp : w.jiraResponse.parsed = Except.ok jd) (hiss : jd.issues = some l)
    (hlne : l ≠ [])
    (hgl : w.githubLookup = SecLookup.found tg) (hgt : ¬ jsTrim tg = "")
    (hgp : w.githubResponse.parsed = Except.ok gd)
    (hb : (Config.resolve opts).openInBrowser = true)
    (hs : (Config.resolve opts).summaryOnly = false) :
    ∃ p3 : List Event,
      (mainRun opts w).fst =
        ([Event.notify "Data Retrieval Started" "Fetching data from JIRA and GitHub..." none] ++
          [Event.httpGet JIRA.searchUrl] ++ jiraOpenEvents (Config.resolve opts) jd) ++
        ((GitHub.getPullRequests w (Config.resolve opts).githubUsername
            (Config.resolve opts).githubRepo).fst ++
          prOpenEvents (Config.resolve opts) gd) ++ p3 ∧
      countUrlOpen (jiraOpenEvents (Config.resolve opts) jd) = l.length ∧
      0 < l.length ∧
      countFileWrite p3 = 1 ∧ countAppOpen p3 = 1 ∧ countIndex p3 = 1 ∧
      countHttpGet p3 = 0 ∧ countUrlOpen p3 = 0 := by
  have hj := getTickets_ok_eq w tj jd hjl hjt hjp
  have hg := getPullRequests_ok_eq w (Config.resolve opts).githubUsername
    (Config.resolve opts).githubRepo tg gd hgl hgt hgp
  refine ⟨(if (Config.resolve opts).richNotifications then
      [Event.notify "Summary"
        (summaryText (combinedOf (Config.resolve opts) w jd gd)) (some "Glass")]
    else []) ++
    [Event.shellMkdir (System.dirnameOf (System.expandTilde w.home
        (Config.resolve opts).outputFilePath)),
     Event.fileWrite (System.expandTilde w.home (Config.resolve opts).outputFilePath)
       (jsonStringify (combinedOf (Config.resolve opts) w jd gd)),
     Event.appOpen (Config.resolve opts).outputApp
       (System.expandTilde w.home (Config.resolve opts).outputFilePath),
     Event.spotlightIndex (System.expandTilde w.home (Config.resolve opts).outputFilePath),
     Event.notify "Data Retrieval Complete"
       ("Retrieved " ++ toString (ticketCountOf jd) ++ " JIRA tickets and " ++
         toString gd.length ++ " GitHub pull requests.") (some "Glass")],
    ?_, countUrlOpen_jiraOpenEvents _ _ l hb hiss,
    List.length_pos.mpr hlne, ?_, ?_, ?_, ?_, ?_⟩
  · rw [mainRun_ok_eq _ _ _ _ _ _ hj hg, afterFetch_full_eq _ _ _ _ _ hs, hg]
    simp [List.append_assoc]
  · rw [countFileWrite_append]
    have h0 : countFileWrite (if (Config.resolve opts).richNotifications then
        [Event.notify "Summary"
          (summaryText (combinedOf (Config.resolve opts) w jd gd)) (some "Glass")]
      else []) = 0 := by
      split_ifs <;> rfl
    rw [h0]
    rfl
  · rw [countAppOpen_append]
    have h0 : countAppOpen (if (Config.resolve opts).richNotifications then
        [Event.notify "Summary"
          (summaryText (combinedOf (Config.resolve opts) w jd gd)) (some "Glass")]
      else []) = 0 := by
      split_ifs <;> rfl
    rw [h0]
    rfl
  · rw [countIndex_append]
    have h0 : countIndex (if (Config.resolve opts).richNotifications then
        [Event.notify "Summary"
          (summaryText (combinedOf (Config.resolve opts) w jd gd)) (some "Glass")]
      else []) = 0 := by
      split_ifs <;> rfl
    rw [h0]
    rfl
  · rw [countHttpGet_append]
    have h0 : countHttpGet (if (Config.resolve opts).richNotifications then
        [Event.notify "Summary"
          (summaryText (combinedOf (Config.resolve opts) w jd gd)) (some "Glass")]
      else []) = 0 := by
      split_ifs <;> rfl
    rw [h0]
    rfl
  · rw [countUrlOpen_append]
    have h0 : countUrlOpen (if (Config.resolve opts).richNotifications then
        [Event.notify "Summary"
          (summaryText (combinedOf (Config.resolve opts) w jd gd)) (some "Glass")]
      else []) = 0 := by
      split_ifs <;> rfl
    rw [h0]
    rfl

/-- Witness for the amended C6 at the healthy world. -/
theorem C6_amended_delivery_ordering_witness :
    ∃ p3 : List Event,
      (mainRun optsDefault wOk).fst =
        ([Event.notify "Data Retrieval Started" "Fetching data from JIRA and GitHub..." none] ++
          [Event.httpGet JIRA.searchUrl] ++
          jiraOpenEvents (Config.resolve optsDefault) { issues := some [tkt1] }) ++
        ((GitHub.getPullRequests wOk (Config.resolve optsDefault).githubUsername
            (Config.resolve optsDefault).githubRepo).fst ++
          prOpenEvents (Config.resolve optsDefault) [pr1]) ++ p3 ∧
      countUrlOpen (jiraOpenEvents (Config.resolve optsDefault) { issues := some [tkt1] }) =
        [tkt1].length ∧
      0 < [tkt1].length ∧
      countFileWrite p3 = 1 ∧ countAppOpen p3 = 1 ∧ countIndex p3 = 1 ∧
      countHttpGet p3 = 0 ∧ countUrlOpen p3 = 0 :=
  C6_amended_delivery_ordering optsDefault wOk "jira-tok" "gh-tok"
    { issues := some [tkt1] } [tkt1] [pr1]
    rfl (by decide) rfl rfl (by decide) rfl (by decide) rfl rfl rfl

/-! ## Helper lemmas: summary text bridging -/

theorem string_foldl_append (xs : List String) :
    ∀ a : String, xs.foldl (fun r s => r ++ s) a = a ++ String.join xs := by
  induction xs with
  | nil =>
      intro a
      show a = a ++ String.join []
      rw [show String.join [] = "" from rfl, String.append_empty]
  | cons x xs ih =>
      intro a
      show xs.foldl (fun r s => r ++ s) (a ++ x) = a ++ String.join (x :: xs)
      rw [ih (a ++ x)]
      have hc : String.join (x :: xs) = x ++ String.join xs := by
        show xs.foldl (fun r s => r ++ s) ("" ++ x) = x ++ String.join xs
        rw [ih ("" ++ x), String.empty_append]
      rw [hc, String.append_assoc]

theorem foldl_map_append {α : Type} (f : α → String) (l : List α) (a : String) :
    l.foldl (fun acc x => acc ++ f x) a = a ++ String.join (l.map f) := by
  induction l generalizing a with
  | nil =>
      show a = a ++ String.join []
      rw [show String.join [] = "" from rfl, String.append_empty]
  | cons x xs ih =>
      show xs.foldl (fun acc y => acc ++ f y) (a ++ f x) = a ++ String.join (f x :: xs.map f)
      rw [ih (a ++ f x)]
      have hc : String.join (f x :: xs.map f) = f x ++ String.join (xs.map f) := by
        show (xs.map f).foldl (fun r s => r ++ s) ("" ++ f x) = f x ++ String.join (xs.map f)
        rw [string_foldl_append (xs.map f) ("" ++ f x), String.empty_append]
      rw [hc, String.append_assoc]

theorem summaryText_eq_summarySpec (d : CombinedData) :
    summaryText d = summarySpec d := by
  unfold summaryText summarySpec
  dsimp only
  congr 1
  · by_cases h : d.jiraTickets.length = 0
    · rw [if_neg (by omega), if_pos h]
    · rw [if_pos (by omega), if_neg h]
      rw [foldl_map_append, String.empty_append]
  · by_cases h : d.githubPullRequests.length = 0
    · rw [if_neg (by omega), if_pos h]
    · rw [if_pos (by omega), if_neg h]
      rw [foldl_map_append, String.empty_append]

/-! ## Helper lemmas: notification-message extraction -/

theorem notifyMessages_append (t : String) (a b : List Event) :
    notifyMessages t (a ++ b) = notifyMessages t a ++ notifyMessages t b :=
  List.filterMap_append a b _

theorem notifyMessages_jiraOpenEvents (t : String) (c : Config) (jd : JiraJson) :
    notifyMessages t (jiraOpenEvents c jd) = [] := by
  unfold jiraOpenEvents notifyMessages
  split_ifs
  · cases jd.issues with
    | none => rfl
    | some l =>
        dsimp only
        split_ifs
        · refine List.filterMap_eq_nil_iff.mpr ?_
          intro e he
          rcases List.mem_map.mp he with ⟨x, _, rfl⟩
          rfl
        · rfl
  · rfl

theorem notifyMessages_prOpenEvents (t : String) (c : Config) (gd : List PullRequest) :
    notifyMessages t (prOpenEvents c gd) = [] := by
  unfold prOpenEvents notifyMessages
  split_ifs
  · refine List.filterMap_eq_nil_iff.mpr ?_
    intro e he
    rcases List.mem_filterMap.mp he with ⟨pr, _, hpr⟩
    rcases Option.map_eq_some'.mp hpr with ⟨v, _, hv⟩
    rw [← hv]
  · rfl

/-! ## C8 -/

/-- C8: every successful run with rich notifications on and
summary-only off sends exactly one "Summary" notification, and its
text is precisely the specification's rendering: at most the first 3
issues and first 3 change-requests in upstream order, an
"...and N more" line exactly when a count exceeds 3 (N = count − 3),
and an explicit "none found" line for each empty side. -/
theorem C8_rich_summary_notification (opts : Options) (w : World) (tj tg : String)
    (jd : JiraJson) (gd : List PullRequest)
    (hjl : w.jiraLookup = SecLookup.found tj) (hjt : ¬ jsTrim tj = "")
    (hjp : w.jiraResponse.parsed = Except.ok jd)
    (hgl : w.githubLookup = SecLookup.found tg) (hgt : ¬ jsTrim tg = "")
    (hgp : w.githubResponse.parsed = Except.ok gd)
    (hr : (Config.resolve opts).richNotifications = true)
    (hs : (Config.resolve opts).summaryOnly = false) :
    notifyMessages "Summary" (mainRun opts w).fst =
      [summarySpec (combinedOf (Config.resolve opts) w jd gd)] := by
  have hj := getTickets_ok_eq w tj jd hjl hjt hjp
  have hg := getPullRequests_ok_eq w (Config.resolve opts).githubUsername
    (Config.resolve opts).githubRepo tg gd hgl hgt hgp
  rw [mainRun_ok_eq _ _ _ _ _ _ hj hg, afterFetch_full_eq _ _ _ _ _ hs, hr,
    if_pos rfl]
  have n1 : ∀ s : String, ∀ snd : Option String,
      notifyMessages "Summary" [Event.notify "Data Retrieval Started" s snd] = [] :=
    fun s snd => rfl
  have n2 : ∀ u : String, notifyMessages "Summary" [Event.httpGet u] = [] := fun u => rfl
  have n5 : ∀ m : String, notifyMessages "Summary"
      [Event.notify "Summary" m (some "Glass")] = [m] := fun m => rfl
  have n4 : ∀ d p c a q i m : String,
      notifyMessages "Summary"
        [Event.shellMkdir d, Event.fileWrite p c, Event.appOpen a q,
         Event.spotlightIndex i,
         Event.notify "Data Retrieval Complete" m (some "Glass")] = [] :=
    fun d p c a q i m => rfl
  simp only [notifyMessages_append, notifyMessages_jiraOpenEvents,
    notifyMessages_prOpenEvents, n1, n2, n5, n4, List.append_nil, List.nil_append]
  rw [summaryText_eq_summarySpec]

/-- Witness for C8: four issues (truncated to three plus an
"...and 1 more" line) and zero pull requests (rendered as an explicit
"none found" line), in one single "Summary" notification. -/
theorem C8_rich_summary_notification_witness :
    notifyMessages "Summary" (mainRun optsDefault wFourZero).fst =
      [summarySpec (combinedOf (Config.resolve optsDefault) wFourZero
        { issues := some [tkt1, tkt2, tkt3, tkt4] } [])] ∧
    summarySpec (combinedOf (Config.resolve optsDefault) wFourZero
        { issues := some [tkt1, tkt2, tkt3, tkt4] } []) =
      "JIRA Tickets (4):\n• PROJ-1: Fix login page alignment\n• PROJ-2: Add dark mode support\n• PROJ-3: Update docs\n• ...and 1 more\n\nNo GitHub pull requests found." :=
  ⟨C8_rich_summary_notification optsDefault wFourZero "jira-tok" "gh-tok"
      { issues := some [tkt1, tkt2, tkt3, tkt4] } []
      rfl (by decide) rfl rfl (by decide) rfl rfl rfl,
    rfl⟩

/-! ## C9 -/

/-- C9: with identical upstream data and configuration, two runs that
differ only in the clock produce reports whose JSON serializations are
byte-identical except for the serialized `generated` value: both are
the same literal prefix, then the escaped timestamp, then the same
suffix (`renderAfterGenerated` agrees on the two reports, which also
agree field-for-field outside `metadata.generated`). -/
theorem C9_merge_deterministic (opts : Options) (w : World) (t1 t2 : String)
    (tj tg : String) (jd : JiraJson) (gd : List PullRequest)
    (hjl : w.jiraLookup = SecLookup.found tj) (hjt : ¬ jsTrim tj = "")
    (hjp : w.jiraResponse.parsed = Except.ok jd)
    (hgl : w.githubLookup = SecLookup.found tg) (hgt : ¬ jsTrim tg = "")
    (hgp : w.githubResponse.parsed = Except.ok gd) :
    ∃ c1 c2 : CombinedData,
      (mainRun opts { w with now := t1 }).snd = Except.ok c1 ∧
      (mainRun opts { w with now := t2 }).snd = Except.ok c2 ∧
      c1.metadata.generated = t1 ∧ c2.metadata.generated = t2 ∧
      c1.metadata.jiraProject = c2.metadata.jiraProject ∧
      c1.metadata.githubRepo = c2.metadata.githubRepo ∧
      c1.jiraTickets = c2.jiraTickets ∧
      c1.githubPullRequests = c2.githubPullRequests ∧
      jsonStringify c1 =
        "\x7b\n  \"metadata\": \x7b\n    \"generated\": " ++ jsonStr t1 ++ renderAfterGenerated c1 ∧
      jsonStringify c2 =
        "\x7b\n  \"metadata\": \x7b\n    \"generated\": " ++ jsonStr t2 ++ renderAfterGenerated c2 ∧
      renderAfterGenerated c1 = renderAfterGenerated c2 := by
  have hj1 := getTickets_ok_eq { w with now := t1 } tj jd hjl hjt hjp
  have hg1 := getPullRequests_ok_eq { w with now := t1 }
    (Config.resolve opts).githubUsername (Config.resolve opts).githubRepo tg gd hgl hgt hgp
  have hj2 := getTickets_ok_eq { w with now := t2 } tj jd hjl hjt hjp
  have hg2 := getPullRequests_ok_eq { w with now := t2 }
    (Config.resolve opts).githubUsername (Config.resolve opts).githubRepo tg gd hgl hgt hgp
  refine ⟨combinedOf (Config.resolve opts) { w with now := t1 } jd gd,
          combinedOf (Config.resolve opts) { w with now := t2 } jd gd,
          ?_, ?_, rfl, rfl, rfl, rfl, rfl, rfl, rfl, rfl, rfl⟩
  · rw [mainRun_ok_eq _ _ _ _ _ _ hj1 hg1]
    exact afterFetch_snd _ _ _ _ _
  · rw [mainRun_ok_eq _ _ _ _ _ _ hj2 hg2]
    exact afterFetch_snd _ _ _ _ _

/-- Witness for C9 at the healthy world with two distinct
timestamps. -/
theorem C9_merge_deterministic_witness :
    ∃ c1 c2 : CombinedData,
      (mainRun optsDefault { wOk with now := "2025-01-01T00:00:00.000Z" }).snd =
        Except.ok c1 ∧
      (mainRun optsDefault { wOk with now := "2025-02-02T00:00:00.000Z" }).snd =
        Except.ok c2 ∧
      c1.metadata.generated = "2025-01-01T00:00:00.000Z" ∧
      c2.metadata.generated = "2025-02-02T00:00:00.000Z" ∧
      c1.metadata.jiraProject = c2.metadata.jiraProject ∧
      c1.metadata.githubRepo = c2.metadata.githubRepo ∧
      c1.jiraTickets = c2.jiraTickets ∧
      c1.githubPullRequests = c2.githubPullRequests ∧
      jsonStringify c1 =
        "\x7b\n  \"metadata\": \x7b\n    \"generated\": " ++
          jsonStr "2025-01-01T00:00:00.000Z" ++ renderAfterGenerated c1 ∧
      jsonStringify c2 =
        "\x7b\n  \"metadata\": \x7b\n    \"generated\": " ++
          jsonStr "2025-02-02T00:00:00.000Z" ++ renderAfterGenerated c2 ∧
      renderAfterGenerated c1 = renderAfterGenerated c2 :=
  C9_merge_deterministic optsDefault wOk "2025-01-01T00:00:00.000Z"
    "2025-02-02T00:00:00.000Z" "jira-tok" "gh-tok" { issues := some [tkt1] } [pr1]
    rfl (by decide) rfl rfl (by decide) rfl
